/-
Verification of the sidechain audio-analysis service core
(app/analysis/camelot.py, app/analysis/analyzer.py, app/analysis/tagger.py,
app/api/routes.py), shallowly embedded in Lean 4.

Numeric values (confidences, activations, BPM, timestamps) are modelled as
rationals; the external collaborators (Essentia extractors, TensorFlow
models, numpy primitives, the filesystem) are parameters of the embedding.
-/
import Mathlib

namespace Sidechain

/-! ## Python builtins used by the source

`str.strip()` and `str.lower()` are language builtins; they are modelled
here by executable character-list functions. -/

/-- Python `str.strip()`: drop leading and trailing whitespace. -/
def pyStrip (s : String) : String :=
  ⟨((s.data.dropWhile Char.isWhitespace).reverse.dropWhile
      Char.isWhitespace).reverse⟩

/-- Python `str.lower()`: lowercase every character. -/
def pyLower (s : String) : String :=
  ⟨s.data.map Char.toLower⟩

/-! ## camelot.py -/

/-- The `CAMELOT_MAP` dict literal from camelot.py, as an association list
in source order.  Keys are (root note, scale) pairs. -/
def CAMELOT_MAP : List ((String × String) × String) :=
  [ (("A", "minor"), "8A"),
    (("E", "minor"), "9A"),
    (("B", "minor"), "10A"),
    (("F#", "minor"), "11A"),
    (("Gb", "minor"), "11A"),
    (("C#", "minor"), "12A"),
    (("Db", "minor"), "12A"),
    (("G#", "minor"), "1A"),
    (("Ab", "minor"), "1A"),
    (("D#", "minor"), "2A"),
    (("Eb", "minor"), "2A"),
    (("A#", "minor"), "3A"),
    (("Bb", "minor"), "3A"),
    (("F", "minor"), "4A"),
    (("C", "minor"), "5A"),
    (("G", "minor"), "6A"),
    (("D", "minor"), "7A"),
    (("C", "major"), "8B"),
    (("G", "major"), "9B"),
    (("D", "major"), "10B"),
    (("A", "major"), "11B"),
    (("E", "major"), "12B"),
    (("B", "major"), "1B"),
    (("F#", "major"), "2B"),
    (("Gb", "major"), "2B"),
    (("C#", "major"), "3B"),
    (("Db", "major"), "3B"),
    (("G#", "major"), "4B"),
    (("Ab", "major"), "4B"),
    (("D#", "major"), "5B"),
    (("Eb", "major"), "5B"),
    (("A#", "major"), "6B"),
    (("Bb", "major"), "6B"),
    (("F", "major"), "7B") ]

/-- Source `to_camelot(key, scale)`: the lookup
`CAMELOT_MAP.get((key, scale.lower()), "")`. -/
def to_camelot (key : String) (scale : String) : String :=
  ((CAMELOT_MAP.find? (fun p => p.1.1 == key && p.1.2 == pyLower scale)).map
    Prod.snd).getD ""

/-- The `enharmonic_map` dict literal from `normalize_key_name`. -/
def enharmonic_map : List (String × String) :=
  [ ("Db", "C#"),
    ("Eb", "D#"),
    ("Gb", "F#"),
    ("Ab", "G#"),
    ("Bb", "A#") ]

/-- Source `normalize_key_name(key)`: strip whitespace, then replace a flat
spelling by its sharp enharmonic equivalent if it has one. -/
def normalize_key_name (key : String) : String :=
  let k := pyStrip key
  ((enharmonic_map.find? (fun p => p.1 == k)).map Prod.snd).getD k

/-- The 24 wheel codes 1A–12A and 1B–12B. -/
def validCamelotCodes : List String :=
  [ "1A", "2A", "3A", "4A", "5A", "6A", "7A", "8A", "9A", "10A", "11A", "12A",
    "1B", "2B", "3B", "4B", "5B", "6B", "7B", "8B", "9B", "10B", "11B", "12B" ]

/-- The wheel table as the spec describes it: 24 entries, sharp-preferred
roots only.  Stated from the spec's words for comparison with the source's
`CAMELOT_MAP`. -/
def specWheelTable24 : List ((String × String) × String) :=
  CAMELOT_MAP.filter (fun p => !(enharmonic_map.any (fun e => e.1 == p.1.1)))

/-! ## analyzer.py

`es.KeyExtractor`, `es.RhythmExtractor2013` and `es.MonoLoader` are opaque
Essentia collaborators; they are parameters of the embedding.  A raised
exception is an `Except.error`. -/

/-- The triple returned by `es.KeyExtractor`. -/
structure KeyRaw where
  key : String
  scale : String
  strength : ℚ

/-- The tuple returned by `es.RhythmExtractor2013` (the two unused
components are dropped). -/
structure RhythmRaw where
  bpm : ℚ
  beats : List ℚ
  beats_confidence : ℚ

/-- The dict built by `AudioAnalyzer._detect_key`. -/
structure KeyDict where
  value : String
  camelot : String
  confidence : ℚ
  scale : String
  root : String
deriving DecidableEq

/-- The dict built by `AudioAnalyzer._detect_bpm`. -/
structure BpmDict where
  value : ℚ
  confidence : ℚ
  beats : Option (List ℚ)
deriving DecidableEq

/-- Exceptions raised by `AudioAnalyzer.analyze` itself (the message text
of the `ValueError` carries the computed duration). -/
inductive AnalyzeError where
  | fileNotFound (path : String)
  | audioTooShort (duration : ℚ)
deriving DecidableEq

/-- The dict returned by `AudioAnalyzer.analyze`: `key` / `bpm` are keyed
into the dict only when requested (outer `Option`) and are `None` when the
corresponding detection raised (inner `Option`). -/
structure AnalyzeResult where
  duration : ℚ
  key : Option (Option KeyDict)
  bpm : Option (Option BpmDict)
deriving DecidableEq

/-- The external collaborators of `AudioAnalyzer`. -/
structure AnalyzerEnv where
  fileExists : String → Bool
  monoLoad : String → List ℚ
  keyExtractor : List ℚ → Except String KeyRaw
  rhythmExtractor : List ℚ → Except String RhythmRaw

/-- Source `AudioAnalyzer._detect_key`: run the extractor, normalize the key
name, attach the wheel code. -/
def AudioAnalyzer._detect_key (env : AnalyzerEnv) (audio : List ℚ) :
    Except String KeyDict :=
  match env.keyExtractor audio with
  | .error e => .error e
  | .ok kr =>
    let key := normalize_key_name kr.key
    let camelot := to_camelot key kr.scale
    .ok { value := key ++ " " ++ kr.scale, camelot := camelot,
          confidence := kr.strength, scale := kr.scale, root := key }

/-- Source `AudioAnalyzer._detect_bpm`: run the extractor, truncate the beats to
the first 100, report `None` instead of an empty beats list. -/
def AudioAnalyzer._detect_bpm (env : AnalyzerEnv) (audio : List ℚ) :
    Except String BpmDict :=
  match env.rhythmExtractor audio with
  | .error e => .error e
  | .ok rr =>
    let beats_list := if rr.beats.length > 0 then rr.beats.take 100 else []
    .ok { value := rr.bpm, confidence := rr.beats_confidence,
          beats := if beats_list.isEmpty then none else some beats_list }

/-- Source `AudioAnalyzer.analyze`: file check, load, duration precondition, then
per-field detection with per-field exception isolation. -/
def AudioAnalyzer.analyze (env : AnalyzerEnv) (sample_rate : ℚ)
    (audio_path : String) (detect_key : Bool) (detect_bpm : Bool) :
    Except AnalyzeError AnalyzeResult :=
  if env.fileExists audio_path = false then
    .error (.fileNotFound audio_path)
  else
    let audio := env.monoLoad audio_path
    let duration : ℚ := (audio.length : ℚ) / sample_rate
    if duration < 3 then
      .error (.audioTooShort duration)
    else
      let keyField : Option (Option KeyDict) :=
        if detect_key then
          match AudioAnalyzer._detect_key env audio with
          | .ok kd => some (some kd)
          | .error _ => some none
        else none
      let bpmField : Option (Option BpmDict) :=
        if detect_bpm then
          match AudioAnalyzer._detect_bpm env audio with
          | .ok bd => some (some bd)
          | .error _ => some none
        else none
      .ok { duration := duration, key := keyField, bpm := bpmField }

/-! ## tagger.py: numpy primitives

`np.mean(·, axis=0)` and `np.argsort` are numpy collaborators, modelled as
executable list functions. -/

/-- Numpy `np.mean(m, axis=0)`: column-wise mean of a matrix held as a list of
rows. -/
def npMeanAxis0 (m : List (List ℚ)) : List ℚ :=
  match m with
  | [] => []
  | r :: _ =>
    (List.range r.length).map
      (fun j => (m.map (fun row => row.getD j 0)).sum / (m.length : ℚ))

/-- Numpy `np.argsort(a)`: the indices of `a`, ordered so that the values read
ascending. -/
def npArgsort (a : List ℚ) : List ℕ :=
  List.insertionSort (fun i j => a.getD i 0 ≤ a.getD j 0)
    (List.range a.length)

/-- Python's `sub in s` substring test. -/
def pyContains (sub : String) (s : String) : Bool :=
  (List.range (s.data.length + 1)).any
    (fun k => (s.data.drop k).take sub.data.length == sub.data)

/-! ## tagger.py: classifiers

TensorFlow model handles are opaque functions from an embedding matrix to
a prediction matrix; a handle that failed to load is `none`, and inference
exceptions are `Except.error`. -/

/-- A loaded `TensorflowPredict2D` handle (or an embedder handle). -/
def ModelFn : Type := List (List ℚ) → Except String (List (List ℚ))

/-- One entry of the `top_tags` list: a `{"name": …, "confidence": …}`
dict. -/
structure TagItem where
  name : String
  confidence : ℚ
deriving DecidableEq

/-- Source `AudioTagger._get_top_tags(embeddings, model_name, top_n)` with the
model's metadata `classes` list passed explicitly: mean-pool, rank
descending, keep the top `top_n`, drop activations ≤ 0.1. -/
def AudioTagger._get_top_tags (embeddings : List (List ℚ))
    (classes : List String) (top_n : ℕ) : List TagItem :=
  if embeddings.length = 0 ∨ classes.length = 0 then []
  else
    let mean_activations := npMeanAxis0 embeddings
    let top_indices := ((npArgsort mean_activations).reverse).take top_n
    (top_indices.filter
        (fun i => decide ((1 : ℚ)/10 < mean_activations.getD i 0))).map
      (fun i =>
        { name := if i < classes.length then classes.getD i ""
                  else "tag_" ++ toString i,
          confidence := mean_activations.getD i 0 })

/-- Source `AudioTagger._classify(embeddings, model_attr, model_name, top_n)`
with the handle and the metadata `classes` list passed explicitly: like
`_get_top_tags` but names only, and indices beyond the label list are
dropped. -/
def AudioTagger._classify (model : Option ModelFn)
    (embeddings : List (List ℚ)) (classes : List String) (top_n : ℕ) :
    List String :=
  match model with
  | none => []
  | some m =>
    match m embeddings with
    | .error _ => []
    | .ok predictions =>
      let mean_predictions := npMeanAxis0 predictions
      let top_indices := ((npArgsort mean_predictions).reverse).take top_n
      (top_indices.filter
          (fun i => decide (i < classes.length) &&
            decide ((1 : ℚ)/10 < mean_predictions.getD i 0))).map
        (fun i => classes.getD i "")

/-- The dict returned by `AudioTagger._classify_binary`; `field` records
which key the boolean was stored under. -/
structure BinaryOut where
  field : String
  decision : Bool
  confidence : ℚ
deriving DecidableEq

/-- Source `AudioTagger._classify_binary(embeddings, model_attr, model_name)`
with the handle and the sidecar metadata passed explicitly
(`metadata_classes = none` models a missing `classes` entry, in which case
the source defaults to `["negative", "positive"]`).  An out-of-range read
of the pooled vector is an `IndexError`, swallowed by the source's
`except` branch. -/
def AudioTagger._classify_binary (model : Option ModelFn)
    (embeddings : List (List ℚ)) (model_name : String)
    (metadata_classes : Option (List String)) : Option BinaryOut :=
  match model with
  | none => none
  | some m =>
    let classes := metadata_classes.getD ["negative", "positive"]
    match m embeddings with
    | .error _ => none
    | .ok predictions =>
      let mean_predictions := npMeanAxis0 predictions
      let positive_idx := if classes.length > 1 then 1 else 0
      match mean_predictions[positive_idx]? with
      | none => none
      | some confidence =>
        let is_positive := decide ((1 : ℚ)/2 < confidence)
        if pyContains "voice" model_name then
          some { field := "has_vocals", decision := is_positive,
                 confidence := confidence }
        else if pyContains "danceability" model_name then
          some { field := "is_danceable", decision := is_positive,
                 confidence := confidence }
        else
          some { field := "is_positive", decision := is_positive,
                 confidence := confidence }

/-- Source `AudioTagger._get_arousal_valence(embeddings)` with the emomusic
handle passed explicitly: mean-pool, read the two dimensions (defaulting a
missing one to 0.5), clamp each into [0, 1]. -/
def AudioTagger._get_arousal_valence (model : Option ModelFn)
    (embeddings : List (List ℚ)) : Option (ℚ × ℚ) :=
  match model with
  | none => none
  | some m =>
    match m embeddings with
    | .error _ => none
    | .ok predictions =>
      let mean_predictions := npMeanAxis0 predictions
      let arousal :=
        if mean_predictions.length > 0 then mean_predictions.getD 0 0
        else (1 : ℚ)/2
      let valence :=
        if mean_predictions.length > 1 then mean_predictions.getD 1 0
        else (1 : ℚ)/2
      some (max 0 (min 1 arousal), max 0 (min 1 valence))

/-! ## tagger.py: model loading and the `tag` pipeline -/

/-- External collaborators of `AudioTagger`: the model directory contents,
the Essentia model constructors (a constructor raises when its graph file
is missing or invalid), the sidecar metadata, and the loaded handles'
behaviour. -/
structure TaggerEnv where
  pbExists : String → Bool
  ctorOk : String → Bool
  effnetCtorOk : String → Bool
  musicnnCtorOk : Bool
  metaClasses : String → Option (List String)
  runModel : String → ModelFn
  effnetEmbed : String → List ℚ → Except String (List (List ℚ))
  musicnnEmbed : List ℚ → Except String (List (List ℚ))

/-- Source `AudioTagger._load_model`: a missing `.pb` artifact or a failing
constructor leaves the handle attribute `None`; neither raises. -/
def AudioTagger._load_model (env : TaggerEnv) (model_name : String) :
    Option ModelFn :=
  if env.pbExists model_name = false then none
  else if env.ctorOk model_name then some (env.runModel model_name)
  else none

/-- The EffNet embedder block of `_ensure_models_loaded`: prefer the
dedicated discogs graph, fall back to the genre graph, swallow constructor
exceptions. -/
def loadDiscogsEmbedder (env : TaggerEnv) :
    Option (List ℚ → Except String (List (List ℚ))) :=
  if env.pbExists "discogs-effnet-bs64-1" then
    if env.effnetCtorOk "discogs-effnet-bs64-1" then
      some (env.effnetEmbed "discogs-effnet-bs64-1")
    else none
  else
    if env.pbExists "mtg_jamendo_genre-discogs-effnet-1" &&
        env.effnetCtorOk "mtg_jamendo_genre-discogs-effnet-1" then
      some (env.effnetEmbed "mtg_jamendo_genre-discogs-effnet-1")
    else none

/-- The MusiCNN embedder block of `_ensure_models_loaded`: the constructor
raises when `msd-musicnn-1.pb` is absent; the exception is swallowed. -/
def loadMusicnnEmbedder (env : TaggerEnv) :
    Option (List ℚ → Except String (List (List ℚ))) :=
  if env.pbExists "msd-musicnn-1" && env.musicnnCtorOk then
    some env.musicnnEmbed
  else none

/-- The result dict of `AudioTagger.tag`; a key absent from the dict is
`none`. -/
structure TagData where
  top_tags : Option (List TagItem)
  genres : Option (List String)
  moods : Option (List String)
  instruments : Option (List String)
  has_vocals : Option Bool
  vocal_confidence : Option ℚ
  is_danceable : Option Bool
  danceability_confidence : Option ℚ
  arousal : Option ℚ
  valence : Option ℚ
deriving DecidableEq

/-- The embedding-extraction pattern of `tag`: skip when the embedder is
`None`, swallow an extraction exception. -/
def computeEmbeddings
    (embedder : Option (List ℚ → Except String (List (List ℚ))))
    (audio : List ℚ) : Option (List (List ℚ)) :=
  match embedder with
  | none => none
  | some f => match f audio with | .error _ => none | .ok e => some e

/-- Source `AudioTagger.tag`: ensure models are loaded, compute each provider's
embeddings once, then run every requested classifier with per-classifier
failure isolation.  A key absent from the source's result dict is a `none`
field here; the `is None` checks of the source become `Option.map` /
`Option.bind`. -/
def AudioTagger.tag (env : TaggerEnv) (audio : List ℚ) (top_n : ℕ)
    (detect_genres : Bool) (detect_moods : Bool)
    (detect_instruments : Bool) (detect_vocals : Bool)
    (detect_danceability : Bool) (detect_arousal_valence : Bool) :
    TagData :=
  let effnet_embeddings := computeEmbeddings (loadDiscogsEmbedder env) audio
  let musicnn_embeddings := computeEmbeddings (loadMusicnnEmbedder env) audio
  let vocal_result :=
    if detect_vocals then
      effnet_embeddings.bind (fun emb =>
        AudioTagger._classify_binary
          (AudioTagger._load_model env "voice_instrumental-discogs-effnet-1")
          emb "voice_instrumental-discogs-effnet-1"
          (env.metaClasses "voice_instrumental-discogs-effnet-1"))
    else none
  let dance_result :=
    if detect_danceability then
      effnet_embeddings.bind (fun emb =>
        AudioTagger._classify_binary
          (AudioTagger._load_model env "danceability-discogs-effnet-1")
          emb "danceability-discogs-effnet-1"
          (env.metaClasses "danceability-discogs-effnet-1"))
    else none
  let av_result :=
    if detect_arousal_valence then
      musicnn_embeddings.bind (fun emb =>
        AudioTagger._get_arousal_valence
          (AudioTagger._load_model env "emomusic-msd-musicnn-2") emb)
    else none
  { top_tags :=
      musicnn_embeddings.map (fun emb =>
        AudioTagger._get_top_tags emb
          ((env.metaClasses "msd-musicnn-1").getD []) top_n)
    genres :=
      if detect_genres then
        effnet_embeddings.map (fun emb =>
          AudioTagger._classify
            (AudioTagger._load_model env "mtg_jamendo_genre-discogs-effnet-1")
            emb ((env.metaClasses "mtg_jamendo_genre-discogs-effnet-1").getD [])
            top_n)
      else none
    moods :=
      if detect_moods then
        effnet_embeddings.map (fun emb =>
          AudioTagger._classify
            (AudioTagger._load_model env "mtg_jamendo_moodtheme-discogs-effnet-1")
            emb
            ((env.metaClasses "mtg_jamendo_moodtheme-discogs-effnet-1").getD [])
            top_n)
      else none
    instruments :=
      if detect_instruments then
        effnet_embeddings.map (fun emb =>
          AudioTagger._classify
            (AudioTagger._load_model env "mtg_jamendo_instrument-discogs-effnet-1")
            emb
            ((env.metaClasses "mtg_jamendo_instrument-discogs-effnet-1").getD [])
            top_n)
      else none
    has_vocals :=
      vocal_result.map (fun out =>
        if out.field == "has_vocals" then out.decision else false)
    vocal_confidence := vocal_result.map (fun out => out.confidence)
    is_danceable :=
      dance_result.map (fun out =>
        if out.field == "is_danceable" then out.decision else false)
    danceability_confidence := dance_result.map (fun out => out.confidence)
    arousal := av_result.map (fun p => p.1)
    valence := av_result.map (fun p => p.2) }

/-! ## routes.py: aggregation of the tag dict into the response schema -/

/-- The pydantic `TagResult` model built inside `analyze_audio`. -/
structure TagResultSchema where
  top_tags : Option (List TagItem)
  genres : Option (List String)
  moods : Option (List String)
  instruments : Option (List String)
  has_vocals : Option Bool
  vocal_confidence : Option ℚ
  is_danceable : Option Bool
  danceability_confidence : Option ℚ
  arousal : Option ℚ
  valence : Option ℚ
deriving DecidableEq

/-- The `TagResult(...)` construction in `routes.analyze_audio`:
`top_tags` goes through a Python truthiness test (an empty list becomes
`None`); every other field is `tag_data.get(...)` verbatim. -/
def routesTagResult (td : TagData) : TagResultSchema :=
  { top_tags :=
      match td.top_tags with
      | none => none
      | some l => if l.isEmpty then none else some l
    genres := td.genres
    moods := td.moods
    instruments := td.instruments
    has_vocals := td.has_vocals
    vocal_confidence := td.vocal_confidence
    is_danceable := td.is_danceable
    danceability_confidence := td.danceability_confidence
    arousal := td.arousal
    valence := td.valence }

/-- The tag portion of the final `/analyze` response: `tagger.tag(path,
top_n=tag_top_n)` (every detect flag at its default `True`) followed by
the `TagResult(...)` construction. -/
def tagResponse (env : TaggerEnv) (audio : List ℚ) (top_n : ℕ) :
    TagResultSchema :=
  routesTagResult (AudioTagger.tag env audio top_n true true true true true true)

/-! ## tagger.py: `_ensure_models_loaded` under concurrent access

`_ensure_models_loaded` is a check-then-act sequence with no lock.  Two
threads A and B each run it once; a thread is at program counter 0 when
about to test `self._models_loaded`, at 1 when past the test and about to
run the load sequence, at 2 when about to execute
`self._models_loaded = True`, and at 3 when returned.  The load sequence
(counted by `load_attempts`) blocks on file I/O and model construction,
so thread interleaving between the test and the store is possible. -/
structure RegistryState where
  models_loaded : Bool
  load_attempts : ℕ
  pcA : ℕ
  pcB : ℕ
deriving DecidableEq

/-- A fresh `AudioTagger`: `_models_loaded = False`, no load attempts,
both threads about to enter `_ensure_models_loaded`. -/
def registryInit : RegistryState :=
  { models_loaded := false, load_attempts := 0, pcA := 0, pcB := 0 }

/-- One thread executing its next statement of `_ensure_models_loaded`:
returns the new flag, the new attempt count and the new program
counter. -/
def threadStep (flag : Bool) (attempts : ℕ) (pc : ℕ) : Bool × ℕ × ℕ :=
  match pc with
  | 0 => (flag, attempts, if flag then 3 else 1)
  | 1 => (flag, attempts + 1, 2)
  | 2 => (true, attempts, 3)
  | _ => (flag, attempts, pc)

/-- Scheduler step: `true` runs thread A, `false` runs thread B. -/
def registryStep (s : RegistryState) (t : Bool) : RegistryState :=
  if t then
    let r := threadStep s.models_loaded s.load_attempts s.pcA
    { models_loaded := r.1, load_attempts := r.2.1, pcA := r.2.2, pcB := s.pcB }
  else
    let r := threadStep s.models_loaded s.load_attempts s.pcB
    { models_loaded := r.1, load_attempts := r.2.1, pcA := s.pcA, pcB := r.2.2 }

/-- Run a schedule from a state. -/
def registryRun (sched : List Bool) (s : RegistryState) : RegistryState :=
  sched.foldl registryStep s

/-! ## Concrete collaborator instances used to exercise the theorems -/

/-- A model handle that returns its input matrix unchanged. -/
def idModel : ModelFn := fun m => Except.ok m

/-- An analyzer environment whose loader yields a 5-sample clip. -/
def shortClipEnv : AnalyzerEnv :=
  { fileExists := fun _ => true
    monoLoad := fun _ => List.replicate 5 0
    keyExtractor := fun _ => Except.error "unprocessable"
    rhythmExtractor := fun _ => Except.error "unprocessable" }

/-- An analyzer environment with a 10-second clip and a rhythm extractor
reporting two beats. -/
def beatsEnv : AnalyzerEnv :=
  { fileExists := fun _ => true
    monoLoad := fun _ => List.replicate 441000 0
    keyExtractor := fun _ => Except.error "unprocessable"
    rhythmExtractor := fun _ =>
      Except.ok { bpm := 120, beats := [1, 2], beats_confidence := 1 } }

/-- The `_classify_binary` output obtained from the identity voice model
on a one-frame activation matrix `[[0, 1]]`. -/
def vocalOut : BinaryOut :=
  { field := "has_vocals", decision := true, confidence := 1 }

/-- A tagger environment whose model directory lacks exactly the
mood/theme artifact. -/
def moodlessEnv : TaggerEnv :=
  { pbExists := fun n => !(n == "mtg_jamendo_moodtheme-discogs-effnet-1")
    ctorOk := fun _ => true
    effnetCtorOk := fun _ => true
    musicnnCtorOk := true
    metaClasses := fun _ => some ["x", "y"]
    runModel := fun _ m => Except.ok m
    effnetEmbed := fun _ _ => Except.ok [[1, 0]]
    musicnnEmbed := fun _ => Except.ok [[1, 0]] }

/-! ## Helper lemmas about the ranking pipeline -/

theorem mem_npArgsort {a : List ℚ} {i : ℕ} (h : i ∈ npArgsort a) :
    i < a.length := by
  unfold npArgsort at h
  rw [List.mem_insertionSort] at h
  exact List.mem_range.mp h

theorem npArgsort_sorted (a : List ℚ) :
    (npArgsort a).Pairwise (fun i j => a.getD i 0 ≤ a.getD j 0) := by
  unfold npArgsort
  haveI : IsTotal ℕ (fun i j => a.getD i 0 ≤ a.getD j 0) :=
    ⟨fun i j => le_total _ _⟩
  haveI : IsTrans ℕ (fun i j => a.getD i 0 ≤ a.getD j 0) :=
    ⟨fun i j k h1 h2 => le_trans h1 h2⟩
  exact List.sorted_insertionSort _ _

theorem npArgsort_nil {a : List ℚ} (h : a.length = 0) : npArgsort a = [] := by
  unfold npArgsort
  rw [h]
  rfl

theorem ranked_sublist (a : List ℚ) (n : ℕ) (p : ℕ → Bool) :
    ((((npArgsort a).reverse).take n).filter p).Sublist (npArgsort a).reverse :=
  ((((npArgsort a).reverse).take n).filter_sublist).trans
    (List.take_sublist n ((npArgsort a).reverse))

theorem ranked_pairwise (a : List ℚ) (n : ℕ) (p : ℕ → Bool) :
    ((((npArgsort a).reverse).take n).filter p).Pairwise
      (fun i j => a.getD j 0 ≤ a.getD i 0) := by
  have h1 : (npArgsort a).reverse.Pairwise (fun i j => a.getD j 0 ≤ a.getD i 0) :=
    List.pairwise_reverse.mpr (npArgsort_sorted a)
  exact h1.sublist (ranked_sublist a n p)

theorem ranked_length_le (a : List ℚ) (n : ℕ) (p : ℕ → Bool) :
    ((((npArgsort a).reverse).take n).filter p).length ≤ n :=
  le_trans (List.length_filter_le p (((npArgsort a).reverse).take n))
    (List.length_take_le n ((npArgsort a).reverse))

theorem mem_ranked {a : List ℚ} {n : ℕ} {p : ℕ → Bool} {i : ℕ}
    (h : i ∈ (((npArgsort a).reverse).take n).filter p) :
    i < a.length ∧ p i = true := by
  have hm := List.mem_filter.mp h
  refine ⟨?_, hm.2⟩
  exact mem_npArgsort (List.mem_reverse.mp (List.mem_of_mem_take hm.1))

end Sidechain

namespace Sidechain

/-! ## The claims -/

/-- C2: `_ensure_models_loaded` is an unguarded check-then-act sequence.
Under the interleaving in which both threads pass the `_models_loaded`
test before either runs the load sequence, the load sequence executes
twice, although a purely sequential execution runs it once.  This refutes
at-most-once initialization under concurrent first access. -/
theorem ensure_models_loaded_race_double_loads :
    (registryRun [true, false, true, true, false, false] registryInit).load_attempts = 2 ∧
    (registryRun [true, false, true, true, false, false] registryInit).pcA = 3 ∧
    (registryRun [true, false, true, true, false, false] registryInit).pcB = 3 ∧
    (registryRun [true, true, true, false, false, false] registryInit).load_attempts = 1 := by
  decide

/-- C5 (counterexample): the source's wheel table has 34 entries, not 24;
the pair ("Db", "minor") lies outside the 24-entry sharp-preferred table
the claim describes, yet `to_camelot` returns "12A" for it rather than the
empty string. -/
theorem to_camelot_flat_pair_counterexample :
    specWheelTable24.length = 24 ∧
    CAMELOT_MAP.length = 34 ∧
    ("Db", "minor") ∉ specWheelTable24.map Prod.fst ∧
    to_camelot "Db" "minor" = "12A" := by
  decide

/-- C5 (amended): `to_camelot` is total over the source's 34-entry table:
every (root, lowercased scale) pair in the table yields one of the 24
codes 1A–12A/1B–12B, and every pair outside the table yields the empty
string; no exception is possible. -/
theorem to_camelot_total (k s : String) :
    ((k, pyLower s) ∈ CAMELOT_MAP.map Prod.fst →
      to_camelot k s ∈ validCamelotCodes) ∧
    ((k, pyLower s) ∉ CAMELOT_MAP.map Prod.fst → to_camelot k s = "") := by
  constructor
  · intro hmem
    have hsome :
        (CAMELOT_MAP.find? (fun p => p.1.1 == k && p.1.2 == pyLower s)).isSome := by
      rw [List.find?_isSome]
      rcases List.mem_map.mp hmem with ⟨pr, hpr, hfst⟩
      exact ⟨pr, hpr, by simp [hfst]⟩
    rcases Option.isSome_iff_exists.mp hsome with ⟨pr, hfind⟩
    have hmem2 := List.mem_of_find?_eq_some hfind
    have hval : ∀ x ∈ CAMELOT_MAP, x.2 ∈ validCamelotCodes := by decide
    have : to_camelot k s = pr.2 := by
      unfold to_camelot
      rw [hfind]
      rfl
    rw [this]
    exact hval pr hmem2
  · intro hnot
    cases hfind : CAMELOT_MAP.find? (fun p => p.1.1 == k && p.1.2 == pyLower s) with
    | none =>
      unfold to_camelot
      rw [hfind]
      rfl
    | some pr =>
      exfalso
      have hp := List.find?_some hfind
      have hmem := List.mem_of_find?_eq_some hfind
      apply hnot
      rw [List.mem_map]
      refine ⟨pr, hmem, ?_⟩
      have h12 : pr.1.1 = k ∧ pr.1.2 = pyLower s := by simpa using hp
      rw [← h12.1, ← h12.2]

/-- C5 (witness): the pair ("A", "minor") is in the table and maps to a
valid code. -/
theorem to_camelot_total_witness :
    to_camelot "A" "minor" ∈ validCamelotCodes :=
  (to_camelot_total "A" "minor").1 (by decide)

/-- C6: enharmonic normalization maps the five flat spellings to their
sharp equivalents, leaves the twelve sharp-or-natural spellings unchanged,
and is idempotent on every whitespace-free input (in particular on every
key name). -/
theorem normalize_key_name_spec :
    (normalize_key_name "Db" = "C#" ∧ normalize_key_name "Eb" = "D#" ∧
      normalize_key_name "Gb" = "F#" ∧ normalize_key_name "Ab" = "G#" ∧
      normalize_key_name "Bb" = "A#") ∧
    (∀ k ∈ ["C", "D", "E", "F", "G", "A", "B", "C#", "D#", "F#", "G#", "A#"],
      normalize_key_name k = k) ∧
    (∀ s : String, pyStrip s = s →
      normalize_key_name (normalize_key_name s) = normalize_key_name s) := by
  refine ⟨by decide, by decide, ?_⟩
  intro s h
  have hs : normalize_key_name s =
      ((enharmonic_map.find? (fun p => p.1 == pyStrip s)).map Prod.snd).getD
        (pyStrip s) := rfl
  cases hf : enharmonic_map.find? (fun p => p.1 == pyStrip s) with
  | none =>
    have heq : normalize_key_name s = s := by rw [hs, hf, h]; rfl
    rw [heq]
    exact heq
  | some pr =>
    have heq : normalize_key_name s = pr.2 := by rw [hs, hf]; rfl
    have hmem := List.mem_of_find?_eq_some hf
    rw [heq]
    fin_cases hmem <;> decide

/-- C6 (witness): idempotence applied at the whitespace-free input "C". -/
theorem normalize_key_name_spec_witness :
    normalize_key_name (normalize_key_name "C") = normalize_key_name "C" :=
  normalize_key_name_spec.2.2 "C" (by decide)

/-- C1: whenever the decoded audio is strictly shorter than 3 seconds,
`analyze` raises the too-short `ValueError` and produces no result dict at
all — no key field, no bpm field, not even a duration-only record. -/
theorem analyze_rejects_short_audio (env : AnalyzerEnv) (rate : ℚ)
    (path : String) (dk db : Bool)
    (hfile : env.fileExists path = true)
    (hshort : ((env.monoLoad path).length : ℚ) / rate < 3) :
    AudioAnalyzer.analyze env rate path dk db =
      Except.error
        (AnalyzeError.audioTooShort (((env.monoLoad path).length : ℚ) / rate)) := by
  unfold AudioAnalyzer.analyze
  rw [hfile]
  simp [hshort]

/-- C1 (witness): a 5-sample clip at 44100 Hz is rejected. -/
theorem analyze_rejects_short_audio_witness :
    AudioAnalyzer.analyze shortClipEnv 44100 "clip.wav" true true =
      Except.error
        (AnalyzeError.audioTooShort
          (((shortClipEnv.monoLoad "clip.wav").length : ℚ) / 44100)) :=
  analyze_rejects_short_audio shortClipEnv 44100 "clip.wav" true true rfl
    (by with_unfolding_all decide)

/-- C7: `_detect_bpm` reports at most 100 beat timestamps, and reports
`None` rather than a list exactly when the rhythm extractor produced zero
beats. -/
theorem detect_bpm_beats_spec (env : AnalyzerEnv) (audio : List ℚ)
    (rr : RhythmRaw) (h : env.rhythmExtractor audio = Except.ok rr) :
    ∃ bd, AudioAnalyzer._detect_bpm env audio = Except.ok bd ∧
      (bd.beats = none ↔ rr.beats = []) ∧
      ∀ l, bd.beats = some l → l.length ≤ 100 := by
  unfold AudioAnalyzer._detect_bpm
  rw [h]
  refine ⟨_, rfl, ?_, ?_⟩
  · cases hb : rr.beats with
    | nil => simp
    | cons x xs => simp
  · intro l hl
    cases hb : rr.beats with
    | nil => simp [hb] at hl
    | cons x xs =>
      simp [hb] at hl
      subst hl
      simp [List.length_take]

/-- C4: both ranked-label paths bound their output by the requested top-N,
emit confidences in non-increasing order, and include only entries whose
pooled activation exceeds the 0.1 confidence floor (for `_classify`, which
reports names only, the properties hold of the activations of the selected
indices). -/
theorem ranked_labels_outputs (emb : List (List ℚ)) (classes : List String)
    (top_n : ℕ) (m : ModelFn) (preds : List (List ℚ))
    (hm : m emb = Except.ok preds) :
    ((AudioTagger._get_top_tags emb classes top_n).length ≤ top_n ∧
      ((AudioTagger._get_top_tags emb classes top_n).map
        TagItem.confidence).Pairwise (fun x y => y ≤ x) ∧
      ∀ t ∈ AudioTagger._get_top_tags emb classes top_n,
        (1 : ℚ)/10 < t.confidence) ∧
    ((AudioTagger._classify (some m) emb classes top_n).length ≤ top_n ∧
      ∃ idxs : List ℕ,
        AudioTagger._classify (some m) emb classes top_n =
          idxs.map (fun i => classes.getD i "") ∧
        (idxs.map (fun i => (npMeanAxis0 preds).getD i 0)).Pairwise
          (fun x y => y ≤ x) ∧
        ∀ i ∈ idxs, i < classes.length ∧
          (1 : ℚ)/10 < (npMeanAxis0 preds).getD i 0) := by
  constructor
  · by_cases hg : emb.length = 0 ∨ classes.length = 0
    · have hz : AudioTagger._get_top_tags emb classes top_n = [] := by
        unfold AudioTagger._get_top_tags
        rw [if_pos hg]
      rw [hz]
      simp
    · have hrw : AudioTagger._get_top_tags emb classes top_n =
          ((((npArgsort (npMeanAxis0 emb)).reverse).take top_n).filter
            (fun i => decide ((1 : ℚ)/10 < (npMeanAxis0 emb).getD i 0))).map
            (fun i =>
              { name := if i < classes.length then classes.getD i ""
                        else "tag_" ++ toString i,
                confidence := (npMeanAxis0 emb).getD i 0 }) := by
        unfold AudioTagger._get_top_tags
        rw [if_neg hg]
      rw [hrw]
      refine ⟨?_, ?_, ?_⟩
      · rw [List.length_map]
        exact ranked_length_le _ _ _
      · rw [List.map_map]
        exact (ranked_pairwise _ _ _).map _ (fun i j hij => hij)
      · intro t ht
        rcases List.mem_map.mp ht with ⟨i, hi, rfl⟩
        exact of_decide_eq_true (mem_ranked hi).2
  · have hrw : AudioTagger._classify (some m) emb classes top_n =
        ((((npArgsort (npMeanAxis0 preds)).reverse).take top_n).filter
          (fun i => decide (i < classes.length) &&
            decide ((1 : ℚ)/10 < (npMeanAxis0 preds).getD i 0))).map
          (fun i => classes.getD i "") := by
      simp only [AudioTagger._classify]
      rw [hm]
    rw [hrw]
    refine ⟨?_, ?_⟩
    · rw [List.length_map]
      exact ranked_length_le _ _ _
    · refine ⟨_, rfl, ?_, ?_⟩
      · exact (ranked_pairwise _ _ _).map _ (fun i j hij => hij)
      · intro i hi
        have h2 := (mem_ranked hi).2
        simpa using h2

/-- C4 (witness): the `_classify` half applied to the identity model on a
one-frame two-class activation matrix. -/
theorem ranked_labels_outputs_witness :
    (AudioTagger._classify (some idModel) [[(1 : ℚ), 0]] ["a", "b"] 5).length ≤ 5 :=
  (ranked_labels_outputs [[(1 : ℚ), 0]] ["a", "b"] 5 idModel [[(1 : ℚ), 0]]
    rfl).2.1

/-- Reading `a[j]` guarded by a length test, as an `Option` read. -/
theorem getD_if_length (l : List ℚ) (j : ℕ) (d : ℚ) :
    (if l.length > j then l.getD j 0 else d) = (l[j]?).getD d := by
  by_cases hj : l.length > j
  · rw [if_pos hj, List.getD_eq_getElem?_getD, List.getElem?_eq_getElem hj]
    rfl
  · rw [if_neg hj, List.getElem?_eq_none (by omega)]
    rfl

theorem classify_none_handle (emb : List (List ℚ)) (classes : List String)
    (n : ℕ) : AudioTagger._classify none emb classes n = [] := rfl

theorem classify_binary_none_handle (emb : List (List ℚ)) (name : String)
    (meta : Option (List String)) :
    AudioTagger._classify_binary none emb name meta = none := rfl

theorem arousal_valence_none_handle (emb : List (List ℚ)) :
    AudioTagger._get_arousal_valence none emb = none := rfl

theorem option_bind_fun_none {α β : Type} (o : Option α) :
    (o.bind fun _ => (none : Option β)) = none := by
  cases o <;> rfl

/-- C8: a successful `_classify_binary` run decides `true` exactly when
the confidence is strictly above 0.5, and that confidence is the
mean-pooled activation at the positive-class index (1 when the label set
has at least two classes, else 0). -/
theorem binary_decision_spec (m : ModelFn) (emb : List (List ℚ))
    (model_name : String) (meta : Option (List String)) (out : BinaryOut)
    (h : AudioTagger._classify_binary (some m) emb model_name meta = some out) :
    (out.decision = true ↔ (1 : ℚ)/2 < out.confidence) ∧
    ∃ preds, m emb = Except.ok preds ∧
      (npMeanAxis0 preds)[if (meta.getD ["negative", "positive"]).length > 1
        then 1 else 0]? = some out.confidence := by
  simp only [AudioTagger._classify_binary] at h
  split at h
  · simp at h
  · rename_i preds hmE
    split at h
    · simp at h
    · rename_i c hgE
      split at h <;> try split at h
      all_goals
        cases Option.some.inj h
        exact ⟨by simp, preds, hmE, hgE⟩

/-- C8 (witness): the voice model output on the activation matrix
`[[0, 1]]`. -/
theorem binary_decision_spec_witness :
    vocalOut.decision = true ↔ (1 : ℚ)/2 < vocalOut.confidence :=
  (binary_decision_spec idModel [[0, 1]]
    "voice_instrumental-discogs-effnet-1" none vocalOut
    (by with_unfolding_all decide)).1

/-- C9: a successful `_get_arousal_valence` run reports the first pooled
dimension as arousal and the second as valence, each independently clamped
into [0, 1], defaulting a structurally missing dimension to 0.5. -/
theorem arousal_valence_spec (m : ModelFn) (emb : List (List ℚ)) (p : ℚ × ℚ)
    (h : AudioTagger._get_arousal_valence (some m) emb = some p) :
    (0 ≤ p.1 ∧ p.1 ≤ 1 ∧ 0 ≤ p.2 ∧ p.2 ≤ 1) ∧
    ∃ preds, m emb = Except.ok preds ∧
      p.1 = max 0 (min 1 (((npMeanAxis0 preds)[0]?).getD ((1 : ℚ)/2))) ∧
      p.2 = max 0 (min 1 (((npMeanAxis0 preds)[1]?).getD ((1 : ℚ)/2))) := by
  simp only [AudioTagger._get_arousal_valence] at h
  split at h
  · simp at h
  · rename_i preds hmE
    cases Option.some.inj h
    refine ⟨⟨le_max_left _ _, max_le zero_le_one (min_le_left _ _),
      le_max_left _ _, max_le zero_le_one (min_le_left _ _)⟩,
      preds, hmE, ?_, ?_⟩
    · rw [← getD_if_length]
    · rw [← getD_if_length]

/-- C9 (witness): the identity emotion model on the one-frame matrix
`[[2, -1]]` yields arousal 1 and valence 0, both in bounds. -/
theorem arousal_valence_spec_witness :
    0 ≤ ((1 : ℚ), (0 : ℚ)).1 ∧ ((1 : ℚ), (0 : ℚ)).1 ≤ 1 ∧
      0 ≤ ((1 : ℚ), (0 : ℚ)).2 ∧ ((1 : ℚ), (0 : ℚ)).2 ≤ 1 :=
  (arousal_valence_spec idModel [[(2 : ℚ), -1]] ((1 : ℚ), (0 : ℚ))
    (by with_unfolding_all decide)).1

/-- C10 (counterexample): on a one-frame activation matrix with two
columns but a single label, the general-tag path emits the placeholder
name "tag_1" that the genre/mood/instrument path drops, so the two name
sequences differ. -/
theorem tag_and_classify_names_counterexample :
    ((AudioTagger._get_top_tags [[(1 : ℚ)/5, 9/10]] ["a"] 2).map
      TagItem.name) ≠
      AudioTagger._classify (some idModel) [[(1 : ℚ)/5, 9/10]] ["a"] 2 := by
  with_unfolding_all decide

/-- C10 (amended): whenever the label list covers every pooled activation
index, the two ranked-label paths produce the same name sequence; they
diverge only on indices beyond the label list, where `_get_top_tags`
emits a placeholder name and `_classify` drops the entry. -/
theorem tag_and_classify_names_agree (m : ModelFn)
    (emb preds : List (List ℚ)) (classes : List String) (top_n : ℕ)
    (hm : m emb = Except.ok preds)
    (hcov : (npMeanAxis0 preds).length ≤ classes.length) :
    (AudioTagger._get_top_tags preds classes top_n).map TagItem.name =
      AudioTagger._classify (some m) emb classes top_n := by
  have hrwC : AudioTagger._classify (some m) emb classes top_n =
      ((((npArgsort (npMeanAxis0 preds)).reverse).take top_n).filter
        (fun i => decide (i < classes.length) &&
          decide ((1 : ℚ)/10 < (npMeanAxis0 preds).getD i 0))).map
        (fun i => classes.getD i "") := by
    simp only [AudioTagger._classify]
    rw [hm]
  rw [hrwC]
  by_cases hg : preds.length = 0 ∨ classes.length = 0
  · have hz : AudioTagger._get_top_tags preds classes top_n = [] := by
      unfold AudioTagger._get_top_tags
      rw [if_pos hg]
    have hml : (npMeanAxis0 preds).length = 0 := by
      rcases hg with h0 | h0
      · cases preds with
        | nil => rfl
        | cons r rs => simp at h0
      · omega
    rw [hz, npArgsort_nil hml]
    simp
  · have hrwT : AudioTagger._get_top_tags preds classes top_n =
        ((((npArgsort (npMeanAxis0 preds)).reverse).take top_n).filter
          (fun i => decide ((1 : ℚ)/10 < (npMeanAxis0 preds).getD i 0))).map
          (fun i =>
            { name := if i < classes.length then classes.getD i ""
                      else "tag_" ++ toString i,
              confidence := (npMeanAxis0 preds).getD i 0 }) := by
      unfold AudioTagger._get_top_tags
      rw [if_neg hg]
    rw [hrwT, List.map_map]
    have hfil :
        (((npArgsort (npMeanAxis0 preds)).reverse).take top_n).filter
          (fun i => decide (i < classes.length) &&
            decide ((1 : ℚ)/10 < (npMeanAxis0 preds).getD i 0)) =
        (((npArgsort (npMeanAxis0 preds)).reverse).take top_n).filter
          (fun i => decide ((1 : ℚ)/10 < (npMeanAxis0 preds).getD i 0)) := by
      apply List.filter_congr
      intro i hi
      have hlt : i < (npMeanAxis0 preds).length :=
        mem_npArgsort (List.mem_reverse.mp (List.mem_of_mem_take hi))
      have hcl : i < classes.length := lt_of_lt_of_le hlt hcov
      simp [hcl]
    rw [hfil]
    apply List.map_congr_left
    intro i hi
    have hcl : i < classes.length := lt_of_lt_of_le (mem_ranked hi).1 hcov
    simp [hcl]

/-- C10 (witness): with two labels covering both activation columns, the
name sequences coincide. -/
theorem tag_and_classify_names_agree_witness :
    (AudioTagger._get_top_tags [[(1 : ℚ), 0]] ["a", "b"] 3).map
      TagItem.name =
      AudioTagger._classify (some idModel) [[(1 : ℚ), 0]] ["a", "b"] 3 :=
  tag_and_classify_names_agree idModel [[(1 : ℚ), 0]] [[(1 : ℚ), 0]]
    ["a", "b"] 3 rfl (by with_unfolding_all decide)

/-- C3 (counterexample): with every artifact present except the
mood/theme model, the final response's `moods` field is present as an
empty list, not absent. -/
theorem missing_mood_model_gives_empty_list :
    moodlessEnv.pbExists "mtg_jamendo_moodtheme-discogs-effnet-1" = false ∧
    (tagResponse moodlessEnv [0] 10).moods = some [] := by
  with_unfolding_all decide

/-- C3 (amended): a missing model artifact never raises, and degrades the
corresponding response fields as follows: `top_tags`, `has_vocals` /
`vocal_confidence`, `is_danceable` / `danceability_confidence` and
`arousal` / `valence` become absent, while `genres` / `moods` /
`instruments` become absent or present-as-empty-list (empty whenever the
EffNet embeddings are still available). -/
theorem missing_artifact_field_behaviour (env : TaggerEnv) (audio : List ℚ)
    (n : ℕ) (dg dm di dv dd dav : Bool) :
    (env.pbExists "voice_instrumental-discogs-effnet-1" = false →
      (routesTagResult (AudioTagger.tag env audio n dg dm di dv dd dav)).has_vocals = none ∧
      (routesTagResult (AudioTagger.tag env audio n dg dm di dv dd dav)).vocal_confidence = none) ∧
    (env.pbExists "danceability-discogs-effnet-1" = false →
      (routesTagResult (AudioTagger.tag env audio n dg dm di dv dd dav)).is_danceable = none ∧
      (routesTagResult (AudioTagger.tag env audio n dg dm di dv dd dav)).danceability_confidence = none) ∧
    (env.pbExists "emomusic-msd-musicnn-2" = false →
      (routesTagResult (AudioTagger.tag env audio n dg dm di dv dd dav)).arousal = none ∧
      (routesTagResult (AudioTagger.tag env audio n dg dm di dv dd dav)).valence = none) ∧
    (env.pbExists "msd-musicnn-1" = false →
      (routesTagResult (AudioTagger.tag env audio n dg dm di dv dd dav)).top_tags = none ∧
      (routesTagResult (AudioTagger.tag env audio n dg dm di dv dd dav)).arousal = none ∧
      (routesTagResult (AudioTagger.tag env audio n dg dm di dv dd dav)).valence = none) ∧
    (env.pbExists "mtg_jamendo_genre-discogs-effnet-1" = false →
      (routesTagResult (AudioTagger.tag env audio n dg dm di dv dd dav)).genres = none ∨
      (routesTagResult (AudioTagger.tag env audio n dg dm di dv dd dav)).genres = some []) ∧
    (env.pbExists "mtg_jamendo_moodtheme-discogs-effnet-1" = false →
      (routesTagResult (AudioTagger.tag env audio n dg dm di dv dd dav)).moods = none ∨
      (routesTagResult (AudioTagger.tag env audio n dg dm di dv dd dav)).moods = some []) ∧
    (env.pbExists "mtg_jamendo_instrument-discogs-effnet-1" = false →
      (routesTagResult (AudioTagger.tag env audio n dg dm di dv dd dav)).instruments = none ∨
      (routesTagResult (AudioTagger.tag env audio n dg dm di dv dd dav)).instruments = some []) := by
  refine ⟨?_, ?_, ?_, ?_, ?_, ?_, ?_⟩
  · intro h
    have hmodel : AudioTagger._load_model env "voice_instrumental-discogs-effnet-1" = none := by
      simp [AudioTagger._load_model, h]
    constructor <;>
      simp [routesTagResult, AudioTagger.tag, hmodel,
        classify_binary_none_handle, option_bind_fun_none]
  · intro h
    have hmodel : AudioTagger._load_model env "danceability-discogs-effnet-1" = none := by
      simp [AudioTagger._load_model, h]
    constructor <;>
      simp [routesTagResult, AudioTagger.tag, hmodel,
        classify_binary_none_handle, option_bind_fun_none]
  · intro h
    have hmodel : AudioTagger._load_model env "emomusic-msd-musicnn-2" = none := by
      simp [AudioTagger._load_model, h]
    constructor <;>
      simp [routesTagResult, AudioTagger.tag, hmodel,
        arousal_valence_none_handle, option_bind_fun_none]
  · intro h
    have hemb : loadMusicnnEmbedder env = none := by
      simp [loadMusicnnEmbedder, h]
    refine ⟨?_, ?_, ?_⟩ <;>
      simp [routesTagResult, AudioTagger.tag, hemb, computeEmbeddings,
        option_bind_fun_none]
  · intro h
    have hmodel : AudioTagger._load_model env "mtg_jamendo_genre-discogs-effnet-1" = none := by
      simp [AudioTagger._load_model, h]
    simp only [routesTagResult, AudioTagger.tag, hmodel, classify_none_handle]
    cases dg with
    | false => left; rfl
    | true =>
      cases hE : computeEmbeddings (loadDiscogsEmbedder env) audio with
      | none => left; simp [hE]
      | some emb => right; simp [hE]
  · intro h
    have hmodel : AudioTagger._load_model env "mtg_jamendo_moodtheme-discogs-effnet-1" = none := by
      simp [AudioTagger._load_model, h]
    simp only [routesTagResult, AudioTagger.tag, hmodel, classify_none_handle]
    cases dm with
    | false => left; rfl
    | true =>
      cases hE : computeEmbeddings (loadDiscogsEmbedder env) audio with
      | none => left; simp [hE]
      | some emb => right; simp [hE]
  · intro h
    have hmodel : AudioTagger._load_model env "mtg_jamendo_instrument-discogs-effnet-1" = none := by
      simp [AudioTagger._load_model, h]
    simp only [routesTagResult, AudioTagger.tag, hmodel, classify_none_handle]
    cases di with
    | false => left; rfl
    | true =>
      cases hE : computeEmbeddings (loadDiscogsEmbedder env) audio with
      | none => left; simp [hE]
      | some emb => right; simp [hE]

/-- C3 (amended, witness): with the mood artifact missing but the EffNet
embedder available, `moods` is present as an empty list. -/
theorem missing_artifact_field_behaviour_witness :
    (routesTagResult (AudioTagger.tag moodlessEnv [0] 3 true true true true true true)).moods = none ∨
    (routesTagResult (AudioTagger.tag moodlessEnv [0] 3 true true true true true true)).moods = some [] :=
  (missing_artifact_field_behaviour moodlessEnv [0] 3
    true true true true true true).2.2.2.2.2.1 (by decide)

/-- C7 (witness): two beats survive unchanged and are reported as a
list. -/
theorem detect_bpm_beats_spec_witness :
    ∃ bd, AudioAnalyzer._detect_bpm beatsEnv [0] = Except.ok bd ∧
      (bd.beats = none ↔ ([(1 : ℚ), 2] : List ℚ) = []) ∧
      ∀ l, bd.beats = some l → l.length ≤ 100 :=
  detect_bpm_beats_spec beatsEnv [0]
    { bpm := 120, beats := [1, 2], beats_confidence := 1 } rfl

end Sidechain
